import Mathlib

/-!
Verification of the dispute-portal core logic (metrics tally, filter/search
engine, record normalization, age bucketing, login matching) against its
natural-language specification.

Each definition below is a shallow embedding of a function of the repository:
JavaScript/TypeScript strings become `String`, raw sheet rows become ordered
association lists (`List (String × Option String)`, preserving key-insertion
order, `none` modelling `null`), timestamps become epoch milliseconds (`Int`),
and `Math.ceil` over non-negative integer millisecond differences becomes
rounded-up natural division.
-/

/-- Canonical dispute record, from the module-level `Dispute` interface of
`src/services/googleSheets.ts` (the generation with `Timestamp`/`Status`
fields, used by `getDisputes`, `calculateMetrics` and `DisputeTable`).
The source type annotates `Status` with a union of string literals but the
values arrive unvalidated from sheet rows (and the interface carries an index
signature), so `Status` is modelled as `String`. -/
structure Dispute where
  Timestamp : String
  supplierName : String
  supplierEmail : String
  supplierId : String
  disputeType : String
  disputeDescription : String
  orderNumber : String
  disputeAmount : String
  attachments : String
  priority : String
  category : String
  subcategory : String
  expectedResolution : String
  contactPhone : String
  preferredContactMethod : String
  Status : String
  deriving Repr, DecidableEq

/-- Metrics record, from `DisputeMetrics` in `src/services/googleSheets.ts`. -/
structure DisputeMetrics where
  totalSubmitted : Nat
  totalPending : Nat
  totalInProgress : Nat
  totalResolved : Nat
  totalRejected : Nat
  totalFakeSignatures : Nat
  totalPaid : Nat
  deriving Repr, DecidableEq

/-- `calculateMetrics` from `src/services/googleSheets.ts` (module-level
version, lines 521–531; the class method at lines 80–90 computes the same
seven counts over the other `Dispute` generation). -/
def calculateMetrics (disputes : List Dispute) : DisputeMetrics :=
  { totalSubmitted := disputes.length
    totalPending := (disputes.filter (fun d => d.Status == "Pending")).length
    totalInProgress := (disputes.filter (fun d => d.Status == "In Progress")).length
    totalResolved := (disputes.filter (fun d => d.Status == "Resolved")).length
    totalRejected := (disputes.filter (fun d => d.Status == "Rejected")).length
    totalFakeSignatures := (disputes.filter (fun d => d.Status == "Fake Signatures")).length
    totalPaid := (disputes.filter (fun d => d.Status == "Paid")).length }

/-- The six status strings that `calculateMetrics` tallies into a bucket. -/
def recognizedStatus (s : String) : Bool :=
  s == "Pending" || s == "In Progress" || s == "Resolved" || s == "Rejected" ||
    s == "Fake Signatures" || s == "Paid"

/-- Sum of the six status-bucket counts of a metrics record. -/
def bucketSum (m : DisputeMetrics) : Nat :=
  m.totalPending + m.totalInProgress + m.totalResolved + m.totalRejected +
    m.totalFakeSignatures + m.totalPaid

/-- A dispute whose `Status` is the `'Under Review'` variant, which the
`Dispute` union type of `src/services/googleSheets.ts` (second generation)
and `DisputeTable.tsx` both admit. -/
def underReviewDispute : Dispute :=
  { Timestamp := "2024-01-01", supplierName := "Acme", supplierEmail := "a@acme.com"
    supplierId := "SUP001", disputeType := "Return", disputeDescription := "lost parcel"
    orderNumber := "ORD1", disputeAmount := "10", attachments := ""
    priority := "Medium", category := "", subcategory := "", expectedResolution := ""
    contactPhone := "", preferredContactMethod := "", Status := "Under Review" }

lemma statusIndicator (s : String) :
    ((if s == "Pending" then 1 else 0) + (if s == "In Progress" then 1 else 0) +
      (if s == "Resolved" then 1 else 0) + (if s == "Rejected" then 1 else 0) +
      (if s == "Fake Signatures" then 1 else 0) + (if s == "Paid" then 1 else 0) : Nat) =
    if recognizedStatus s then 1 else 0 := by
  by_cases h1 : s = "Pending"
  · subst h1; decide
  by_cases h2 : s = "In Progress"
  · subst h2; decide
  by_cases h3 : s = "Resolved"
  · subst h3; decide
  by_cases h4 : s = "Rejected"
  · subst h4; decide
  by_cases h5 : s = "Fake Signatures"
  · subst h5; decide
  by_cases h6 : s = "Paid"
  · subst h6; decide
  simp [recognizedStatus, beq_iff_eq, h1, h2, h3, h4, h5, h6]

lemma bucketSum_eq_countRecognized (l : List Dispute) :
    bucketSum (calculateMetrics l) =
      (l.filter (fun d => recognizedStatus d.Status)).length := by
  induction l with
  | nil => decide
  | cons d t ih =>
    simp only [bucketSum, calculateMetrics, List.filter_cons] at *
    have hd := statusIndicator d.Status
    by_cases hrec : recognizedStatus d.Status = true
    · simp only [hrec, if_true] at hd ⊢
      cases hp1 : d.Status == "Pending" <;> cases hp2 : d.Status == "In Progress" <;>
        cases hp3 : d.Status == "Resolved" <;> cases hp4 : d.Status == "Rejected" <;>
        cases hp5 : d.Status == "Fake Signatures" <;> cases hp6 : d.Status == "Paid" <;>
        simp [hp1, hp2, hp3, hp4, hp5, hp6] at hd ⊢ <;> omega
    · simp only [Bool.not_eq_true] at hrec
      simp only [hrec, Bool.false_eq_true, if_false] at hd ⊢
      cases hp1 : d.Status == "Pending" <;> cases hp2 : d.Status == "In Progress" <;>
        cases hp3 : d.Status == "Resolved" <;> cases hp4 : d.Status == "Rejected" <;>
        cases hp5 : d.Status == "Fake Signatures" <;> cases hp6 : d.Status == "Paid" <;>
        simp [hp1, hp2, hp3, hp4, hp5, hp6] at hd ⊢ <;> omega

/-- C1 (counterexample): for the collection holding one record whose status is
`'Under Review'` — a value the source `Dispute` type itself admits —
`calculateMetrics` reports `totalSubmitted = 1` while the six status buckets
sum to `0`: the record is counted in no bucket, so the claimed equality
`sum of buckets = totalSubmitted` fails and no catch-all bucket exists. -/
theorem C1_metrics_counterexample :
    bucketSum (calculateMetrics [underReviewDispute]) = 0 ∧
      (calculateMetrics [underReviewDispute]).totalSubmitted = 1 :=
  ⟨by decide, by decide⟩

/-- C1 (amended): `calculateMetrics` counts every record whose status is one of
the six recognized values (`Pending`, `In Progress`, `Resolved`, `Rejected`,
`Fake Signatures`, `Paid`) in exactly one bucket; the sum of the six bucket
counts equals the number of records with a recognized status (not
`totalSubmitted`); `totalSubmitted` is the full length; records with an
unrecognized status (such as `'Under Review'`) contribute to `totalSubmitted`
but to no bucket — there is no catch-all bucket. -/
theorem C1_metrics_amended (l : List Dispute) :
    bucketSum (calculateMetrics l) =
        (l.filter (fun d => recognizedStatus d.Status)).length ∧
      (calculateMetrics l).totalSubmitted = l.length ∧
      ∀ s : String,
        ((if s == "Pending" then 1 else 0) + (if s == "In Progress" then 1 else 0) +
          (if s == "Resolved" then 1 else 0) + (if s == "Rejected" then 1 else 0) +
          (if s == "Fake Signatures" then 1 else 0) + (if s == "Paid" then 1 else 0) : Nat) =
        if recognizedStatus s then 1 else 0 :=
  ⟨bucketSum_eq_countRecognized l, rfl, statusIndicator⟩

/-!
Filter/search engine of `src/components/DisputeTable.tsx` (`filteredDisputes`,
lines 143–161). `hay.toLowerCase().includes(pat.toLowerCase())` becomes
case-insensitive infix containment over character lists.
-/

/-- JavaScript `s.toLowerCase()`, modelled character-wise over the string's
character list (the repository's data is ASCII). -/
def lowerStr (s : String) : String :=
  ⟨s.data.map Char.toLower⟩

/-- JavaScript `s.trim()`: strip leading and trailing whitespace. -/
def trimStr (s : String) : String :=
  ⟨((s.data.dropWhile Char.isWhitespace).reverse.dropWhile Char.isWhitespace).reverse⟩

/-- `hay.toLowerCase().includes(pat.toLowerCase())` of the source. -/
def ciContains (hay pat : String) : Bool :=
  decide ((lowerStr pat).data <:+: (lowerStr hay).data)

/-- `matchesSearch` disjunction of `filteredDisputes` in `DisputeTable.tsx`:
the search term is matched case-insensitively against order number, supplier
name, supplier email, supplier id and description. -/
def matchesSearch (d : Dispute) (searchTerm : String) : Bool :=
  ciContains d.orderNumber searchTerm || ciContains d.supplierName searchTerm ||
    ciContains d.supplierEmail searchTerm || ciContains d.supplierId searchTerm ||
    ciContains d.disputeDescription searchTerm

/-- `filteredDisputes` from `DisputeTable.tsx`: AND of the free-text search
with the three categorical filters, each with sentinel value `"all"`. -/
def filteredDisputes (disputes : List Dispute)
    (searchTerm statusFilter priorityFilter typeFilter : String) : List Dispute :=
  disputes.filter (fun d =>
    matchesSearch d searchTerm &&
      (statusFilter == "all" || d.Status == statusFilter) &&
      (priorityFilter == "all" || d.priority == priorityFilter) &&
      (typeFilter == "all" || d.disputeType == typeFilter))

/-- Spec-side matching predicate for C2 (refinement target, stated from the
spec's words): some searchable field contains the term case-insensitively,
and each categorical criterion is either at its sentinel or an exact match. -/
def specFilterPred (d : Dispute)
    (searchTerm statusFilter priorityFilter typeFilter : String) : Prop :=
  ((lowerStr searchTerm).data <:+: (lowerStr d.orderNumber).data ∨
    (lowerStr searchTerm).data <:+: (lowerStr d.supplierName).data ∨
    (lowerStr searchTerm).data <:+: (lowerStr d.supplierEmail).data ∨
    (lowerStr searchTerm).data <:+: (lowerStr d.supplierId).data ∨
    (lowerStr searchTerm).data <:+: (lowerStr d.disputeDescription).data) ∧
  (statusFilter = "all" ∨ d.Status = statusFilter) ∧
  (priorityFilter = "all" ∨ d.priority = priorityFilter) ∧
  (typeFilter = "all" ∨ d.disputeType = typeFilter)

lemma lowerStr_empty : lowerStr "" = "" := rfl

lemma matchesSearch_empty (d : Dispute) : matchesSearch d "" = true := by
  simp [matchesSearch, ciContains, lowerStr_empty]

/-- C2 (confirmed): the filter engine returns exactly the subsequence of the
input satisfying the AND of all active criteria — sentinel `"all"` and the
empty search term are vacuously true, text matching is case-insensitive
substring containment over the five searchable fields, categorical matching is
exact equality — and with every criterion at its sentinel the full collection
is returned unchanged in its original order. -/
theorem C2_filter_engine (disputes : List Dispute)
    (searchTerm statusFilter priorityFilter typeFilter : String) :
    (∀ d : Dispute,
      d ∈ filteredDisputes disputes searchTerm statusFilter priorityFilter typeFilter ↔
        d ∈ disputes ∧ specFilterPred d searchTerm statusFilter priorityFilter typeFilter) ∧
    (filteredDisputes disputes searchTerm statusFilter priorityFilter typeFilter).Sublist
        disputes ∧
    filteredDisputes disputes "" "all" "all" "all" = disputes := by
  refine ⟨fun d => ?_, List.filter_sublist disputes, ?_⟩
  · simp only [filteredDisputes, List.mem_filter, specFilterPred, matchesSearch, ciContains,
      Bool.and_eq_true, Bool.or_eq_true, beq_iff_eq, decide_eq_true_eq]
    tauto
  · simp [filteredDisputes, matchesSearch_empty]

/-!
Elapsed-days computation: `getDaysOld` in `src/pages/AdminDashboard.tsx`
(lines 91–96) and `getDaysPassedSinceSubmission` in
`src/components/DisputeTable.tsx` (lines 103–108). Both compute
`Math.ceil(Math.abs(now - date) / 86400000)` over epoch-millisecond
timestamps; the ceiling of a non-negative integer quotient is rounded-up
natural division.
-/

/-- `getDaysOld` from `AdminDashboard.tsx`: ceiling of the absolute
millisecond difference divided by one day (86400000 ms). -/
def getDaysOld (now date : Int) : Nat :=
  ((now - date).natAbs + 86399999) / 86400000

/-- `getDaysPassedSinceSubmission` from `DisputeTable.tsx` — the identical
computation with `today`/`submission` naming. -/
def getDaysPassedSinceSubmission (today submission : Int) : Nat :=
  ((today - submission).natAbs + 86399999) / 86400000

/-- C5 (counterexample): a record whose submission timestamp equals the
reference instant yields elapsed days `0`, not the `≥ 1` the claim requires
for a zero difference. -/
theorem C5_daysOld_counterexample :
    getDaysOld 1700000000000 1700000000000 = 0 ∧
      ¬ (1 ≤ getDaysOld 1700000000000 1700000000000) ∧
      getDaysPassedSinceSubmission 1700000000000 1700000000000 = 0 :=
  ⟨by decide, by decide, by decide⟩

/-- C5 (amended): the elapsed-days computation is the ceiling of the absolute
time difference in days — for a positive difference the result `n` satisfies
`86400000·(n−1) < diff ≤ 86400000·n`, so any strictly positive sub-day
difference (e.g. 30 minutes) yields `1` — but an exactly-zero difference
yields `0`, not `1`; both implementations agree. -/
theorem C5_daysOld_amended (now date : Int) :
    ((now - date).natAbs = 0 → getDaysOld now date = 0) ∧
      (0 < (now - date).natAbs →
        86400000 * (getDaysOld now date - 1) < (now - date).natAbs ∧
        (now - date).natAbs ≤ 86400000 * getDaysOld now date ∧
        1 ≤ getDaysOld now date) ∧
      getDaysPassedSinceSubmission now date = getDaysOld now date := by
  refine ⟨fun h => ?_, fun h => ?_, rfl⟩
  · simp [getDaysOld, h]
  · unfold getDaysOld
    omega

/-- C5 witness: at a 30-minute (1800000 ms) difference the amended theorem
gives elapsed days `1`. -/
theorem C5_daysOld_witness :
    0 < ((1700000000000 : Int) - 1699998200000).natAbs ∧
      1 ≤ getDaysOld 1700000000000 1699998200000 :=
  ⟨by decide, ((C5_daysOld_amended 1700000000000 1699998200000).2.1 (by decide)).2.2⟩

/-!
Age bucketing of `src/pages/AdminDashboard.tsx` (`ageData`, lines 83–89).
`AdminDashboard` consumes the first-generation `Dispute` interface of
`googleSheets.ts` (lines 3–16: lowercase `status`, `submissionDate`);
`submissionDate` is modelled as an epoch-millisecond timestamp, which is what
`new Date(dateString).getTime()` yields for a parseable date string.
-/

/-- First-generation `Dispute` interface of `src/services/googleSheets.ts`
(lines 3–16), the shape `AdminDashboard.tsx` iterates over. Only the fields
`ageData` reads are listed; `submissionDate` is the record's epoch-millisecond
submission instant. -/
structure DisputeV1 where
  id : String
  status : String
  submissionDate : Int
  deriving Repr, DecidableEq

/-- `ageData` from `AdminDashboard.tsx`: the four fixed age buckets over the
pending-status records, each count obtained by filtering on `getDaysOld`
applied to the record's submission date against the reference instant `now`. -/
def ageData (now : Int) (disputes : List DisputeV1) : List (String × Nat) :=
  let pendingDisputes := disputes.filter (fun d => d.status == "Pending")
  [("0-3 days",
      (pendingDisputes.filter (fun d => getDaysOld now d.submissionDate ≤ 3)).length),
   ("4-7 days",
      (pendingDisputes.filter (fun d =>
        3 < getDaysOld now d.submissionDate ∧ getDaysOld now d.submissionDate ≤ 7)).length),
   ("8-14 days",
      (pendingDisputes.filter (fun d =>
        7 < getDaysOld now d.submissionDate ∧ getDaysOld now d.submissionDate ≤ 14)).length),
   ("15+ days",
      (pendingDisputes.filter (fun d => 14 < getDaysOld now d.submissionDate)).length)]

lemma ageIndicator (n : Nat) :
    ((if n ≤ 3 then 1 else 0) + (if 3 < n ∧ n ≤ 7 then 1 else 0) +
      (if 7 < n ∧ n ≤ 14 then 1 else 0) + (if 14 < n then 1 else 0) : Nat) = 1 := by
  rcases le_or_lt n 3 with h1 | h1
  · rw [if_pos h1, if_neg (by omega), if_neg (by omega), if_neg (by omega)]
  rcases le_or_lt n 7 with h2 | h2
  · rw [if_neg (by omega), if_pos ⟨h1, h2⟩, if_neg (by omega), if_neg (by omega)]
  rcases le_or_lt n 14 with h3 | h3
  · rw [if_neg (by omega), if_neg (by omega), if_pos ⟨h2, h3⟩, if_neg (by omega)]
  · rw [if_neg (by omega), if_neg (by omega), if_neg (by omega), if_pos h3]

lemma four_filter_partition {α : Type} (p q r s : α → Bool)
    (hone : ∀ a, ((if p a then 1 else 0) + (if q a then 1 else 0) +
      (if r a then 1 else 0) + (if s a then 1 else 0) : Nat) = 1) :
    ∀ l : List α,
      (l.filter p).length + (l.filter q).length + (l.filter r).length +
        (l.filter s).length = l.length := by
  intro l
  induction l with
  | nil => simp
  | cons d t ih =>
    have hd := hone d
    simp only [List.filter_cons]
    cases hp : p d <;> cases hq : q d <;> cases hr : r d <;> cases hs : s d <;>
      simp [hp, hq, hr, hs] at hd ⊢ <;> omega

lemma ageData_counts_sum (now : Int) (disputes : List DisputeV1) :
    ((ageData now disputes).map Prod.snd).sum =
      (disputes.filter (fun d => d.status == "Pending")).length := by
  simp only [ageData, List.map_cons, List.map_nil, List.sum_cons, List.sum_nil]
  have h := four_filter_partition
    (fun d : DisputeV1 => decide (getDaysOld now d.submissionDate ≤ 3))
    (fun d : DisputeV1 => decide (3 < getDaysOld now d.submissionDate ∧
      getDaysOld now d.submissionDate ≤ 7))
    (fun d : DisputeV1 => decide (7 < getDaysOld now d.submissionDate ∧
      getDaysOld now d.submissionDate ≤ 14))
    (fun d : DisputeV1 => decide (14 < getDaysOld now d.submissionDate))
    (fun a => by
      simp only [decide_eq_true_eq]
      exact ageIndicator (getDaysOld now a.submissionDate))
    (disputes.filter (fun d => d.status == "Pending"))
  omega

/-- A pending dispute submitted at epoch instant 0, for boundary checks. -/
def pendingAtZero : DisputeV1 :=
  { id := "D1", status := "Pending", submissionDate := 0 }

/-- C4 (confirmed): `ageData` always outputs the four fixed buckets
`0-3 / 4-7 / 8-14 / 15+` days in ascending order (zero counts included when a
bucket is empty), the bucket predicates are pairwise exclusive and exhaustive
so every pending record lands in exactly one bucket and the counts sum to the
number of pending records, a record exactly 3 days old is counted in the
`0-3 days` bucket, and a record exactly 4 days old in the `4-7 days` bucket. -/
theorem C4_age_buckets (now : Int) (disputes : List DisputeV1) :
    (ageData now disputes).map Prod.fst =
        ["0-3 days", "4-7 days", "8-14 days", "15+ days"] ∧
      ((ageData now disputes).map Prod.snd).sum =
        (disputes.filter (fun d => d.status == "Pending")).length ∧
      (∀ n : Nat,
        ((if n ≤ 3 then 1 else 0) + (if 3 < n ∧ n ≤ 7 then 1 else 0) +
          (if 7 < n ∧ n ≤ 14 then 1 else 0) + (if 14 < n then 1 else 0) : Nat) = 1) ∧
      (ageData now []).map Prod.snd = [0, 0, 0, 0] ∧
      (ageData (3 * 86400000) [pendingAtZero]).map Prod.snd = [1, 0, 0, 0] ∧
      (ageData (4 * 86400000) [pendingAtZero]).map Prod.snd = [0, 1, 0, 0] :=
  ⟨rfl, ageData_counts_sum now disputes, ageIndicator, rfl, by decide, by decide⟩

/-!
Status update: `updateDisputeStatus` in `src/services/googleSheets.ts`
(lines 508–512) and its wrapper in `src/services/Webportal.ts`
(lines 161–180).
-/

/-- Module-level `updateDisputeStatus` from `src/services/googleSheets.ts`
(lines 508–512): it only logs and returns `true`; it consults no store and
mutates nothing. -/
def updateDisputeStatus (disputeId : String) (newStatus : String) : Bool :=
  true

/-- The `USE_DEMO` toggle of `src/services/Webportal.ts` (line 16). -/
def USE_DEMO : Bool := true

/-- `updateDisputeStatus` from `src/services/Webportal.ts` (lines 161–180):
with `USE_DEMO = true` it delegates to the `googleSheetsService` stub above.
The `USE_DEMO = false` branch performs a network `fetch` and is unreachable
under the shipped constant, so it is not modelled. -/
def webportalUpdateDisputeStatus (disputeId : String) (newStatus : String) : Bool :=
  if USE_DEMO then updateDisputeStatus disputeId newStatus else false

/-- C7 (counterexample): for an identifier that is present in no store at all,
`updateDisputeStatus` still reports success (`true`) instead of the claimed
not-found failure — both in `googleSheets.ts` and through the `Webportal.ts`
wrapper. -/
theorem C7_updateStatus_counterexample :
    updateDisputeStatus "nonexistent-id" "Resolved" = true ∧
      webportalUpdateDisputeStatus "nonexistent-id" "Resolved" = true :=
  ⟨rfl, rfl⟩

/-- C7 (amended): `updateDisputeStatus` is a stub — for every identifier
(present or absent) and every status it returns `true` (success), never a
not-found failure, and it takes no store and touches none, so the store is
trivially left unchanged; the `Webportal.ts` wrapper inherits this behavior
under the shipped `USE_DEMO = true`. -/
theorem C7_updateStatus_amended (disputeId newStatus : String) :
    updateDisputeStatus disputeId newStatus = true ∧
      webportalUpdateDisputeStatus disputeId newStatus = true :=
  ⟨rfl, rfl⟩

/-!
Record normalizer of `src/services/Webportal.ts`: `getFirst` (lines 21–32)
and `normalizeRow` (lines 37–71). A raw sheet row is an ordered association
list of column name to value, `none` modelling `null` (an absent key models
`undefined`); `Object.keys` iteration order is the list order.
-/

/-- A raw sheet row: ordered key/value pairs as delivered by the Apps Script
endpoint, `none` standing for `null`. -/
abbrev Row := List (String × Option String)

/-- JavaScript property read `row[k]`: `none` when the key is absent
(`undefined`), `some none` when the stored value is `null`. -/
def lookupRow (row : Row) (k : String) : Option (Option String) :=
  (row.find? (fun p => p.1 == k)).map Prod.snd

/-- The source's `v !== undefined && v !== null && v !== ""` guard: keep only
a present, non-null, non-empty string value. -/
def nonEmptyVal : Option (Option String) → Option String
  | some (some s) => if s == "" then none else some s
  | _ => none

/-- `Object.keys(row).find((rk) => rk.toLowerCase() === k.toLowerCase())` of
`getFirst`: the first binding whose key matches case-insensitively. -/
def ciLookup (row : Row) (k : String) : Option (String × Option String) :=
  row.find? (fun p => lowerStr p.1 == lowerStr k)

/-- `getFirst` from `src/services/Webportal.ts` (lines 21–32): probe each key
in order — exact lookup first, then the first case-insensitively matching key
— and return the first present, non-null, non-empty value; `""` when no probe
succeeds. -/
def getFirst (row : Row) : List String → String
  | [] => ""
  | k :: rest =>
    match nonEmptyVal (lookupRow row k) with
    | some v => v
    | none =>
      match ciLookup row k with
      | some p =>
        match nonEmptyVal (some p.2) with
        | some v => v
        | none => getFirst row rest
      | none => getFirst row rest

/-- JavaScript string fallback `a || b` (for strings, `a` is falsy exactly
when it is empty). -/
def jsOr (a b : String) : String := if a == "" then b else a

/-- Spec-side probe of one key for the C3 refinement statement: the exact
lookup, with the case-insensitive first match as fallback. -/
def probeKey (row : Row) (k : String) : Option String :=
  (nonEmptyVal (lookupRow row k)).orElse
    (fun _ => (ciLookup row k).bind (fun p => nonEmptyVal (some p.2)))

/-- Spec-side ordered probing for the C3 refinement statement: the first key
whose probe yields a non-empty value. -/
def firstNonEmpty (row : Row) (keys : List String) : Option String :=
  keys.findSome? (fun k => probeKey row k)

/-- `normalizeRow` from `src/services/Webportal.ts` (lines 37–71). The
embedded-email extraction branch (lines 43–47, a regex rewrite of
`supplierName`/`supplierEmail` that fires only when the combined supplier
field contains an email pattern) is outside the fields the claims touch and
is not modelled: `supplierName`/`supplierEmail` here carry the probe results
that feed that branch. The dead local `idFromRow` (line 49, never used in the
returned record) is omitted. -/
def normalizeRow (row : Row) : Dispute :=
  let supplierField := getFirst row ["Supplier", "supplier", "Supplier Name", "supplierName"]
  { Timestamp := getFirst row ["Timestamp", "submissionDate", "Submission Date", "SubmissionDate"]
    supplierName := supplierField
    supplierEmail := getFirst row ["supplierEmail", "Supplier Email", "supplier_email"]
    supplierId := getFirst row ["supplierId", "SupplierID", "supplier_id"]
    disputeType := getFirst row ["disputeType", "Dispute Type"]
    disputeDescription :=
      getFirst row ["disputeDescription", "reason", "ReasonforDispute", "Reason for Dispute", "Reason"]
    orderNumber := getFirst row ["orderNumber", "orderItemId", "Order Item ID", "OrderItemID"]
    disputeAmount := getFirst row ["disputeAmount", "Dispute Amount"]
    attachments := getFirst row ["attachments", "Attachments"]
    priority := jsOr (getFirst row ["priority", "Priority"]) "Medium"
    category := getFirst row ["category", "Category"]
    subcategory := getFirst row ["subcategory", "Subcategory"]
    expectedResolution := getFirst row ["expectedResolution", "Expected Resolution"]
    contactPhone := getFirst row ["contactPhone", "Contact Phone"]
    preferredContactMethod := getFirst row ["preferredContactMethod", "Preferred Contact Method"]
    Status := jsOr (getFirst row ["status", "Status"]) "Pending" }

lemma getFirst_eq_firstNonEmpty (row : Row) (keys : List String) :
    getFirst row keys = (firstNonEmpty row keys).getD "" := by
  induction keys with
  | nil => rfl
  | cons k rest ih =>
    simp only [getFirst, firstNonEmpty, List.findSome?_cons, probeKey, Option.orElse]
    cases h1 : nonEmptyVal (lookupRow row k) with
    | some v => rfl
    | none =>
      simp only []
      cases h2 : ciLookup row k with
      | none => simpa [firstNonEmpty] using ih
      | some p =>
        simp only [Option.bind]
        cases h3 : nonEmptyVal (some p.2) with
        | some v => rfl
        | none => simpa [firstNonEmpty] using ih

lemma nonEmptyVal_ne_empty {x : Option (Option String)} {v : String}
    (h : nonEmptyVal x = some v) : v ≠ "" := by
  match x with
  | some (some s) =>
    by_cases hs : s == ""
    · simp [nonEmptyVal, hs] at h
    · simp only [nonEmptyVal, hs, if_neg, Bool.false_eq_true] at h
      cases h
      exact fun he => by simp [he] at hs
  | some none => simp [nonEmptyVal] at h
  | none => simp [nonEmptyVal] at h

lemma probeKey_ne_empty {row : Row} {k : String} {v : String}
    (h : probeKey row k = some v) : v ≠ "" := by
  unfold probeKey Option.orElse at h
  cases h1 : nonEmptyVal (lookupRow row k) with
  | some w =>
    rw [h1] at h
    cases h
    exact nonEmptyVal_ne_empty h1
  | none =>
    rw [h1] at h
    simp only [Option.bind] at h
    cases h2 : ciLookup row k with
    | none => rw [h2] at h; cases h
    | some p =>
      rw [h2] at h
      exact nonEmptyVal_ne_empty h

lemma firstNonEmpty_ne_empty {row : Row} {keys : List String} {v : String}
    (h : firstNonEmpty row keys = some v) : v ≠ "" := by
  induction keys with
  | nil => cases h
  | cons k rest ih =>
    simp only [firstNonEmpty, List.findSome?_cons] at h
    cases h1 : probeKey row k with
    | some w =>
      rw [h1] at h
      cases h
      exact probeKey_ne_empty h1
    | none =>
      rw [h1] at h
      exact ih h

lemma getFirst_of_some {row : Row} {keys : List String} {v : String}
    (h : firstNonEmpty row keys = some v) : getFirst row keys = v := by
  rw [getFirst_eq_firstNonEmpty, h]; rfl

lemma getFirst_of_none {row : Row} {keys : List String}
    (h : firstNonEmpty row keys = none) : getFirst row keys = "" := by
  rw [getFirst_eq_firstNonEmpty, h]; rfl

/-- C3 (confirmed): `getFirst` probes its key list in order (exact lookup
first, the first case-insensitively matching key as fallback) and returns the
first present, non-null, non-empty value, `""` when every probe fails; the
defaults of `normalizeRow` then apply — `priority` falls back to `"Medium"`,
`Status` to `"Pending"`, free-text fields (e.g. `disputeType`,
`disputeDescription`) to `""` — while a successful probe's value is returned
verbatim; and the normalizer, a pure function of the row, is deterministic. -/
theorem C3_normalizer (row : Row) :
    (∀ keys, getFirst row keys = (firstNonEmpty row keys).getD "") ∧
      (firstNonEmpty row ["priority", "Priority"] = none →
        (normalizeRow row).priority = "Medium") ∧
      (∀ v, firstNonEmpty row ["priority", "Priority"] = some v →
        (normalizeRow row).priority = v) ∧
      (firstNonEmpty row ["status", "Status"] = none →
        (normalizeRow row).Status = "Pending") ∧
      (∀ v, firstNonEmpty row ["status", "Status"] = some v →
        (normalizeRow row).Status = v) ∧
      (firstNonEmpty row ["disputeType", "Dispute Type"] = none →
        (normalizeRow row).disputeType = "") ∧
      (firstNonEmpty row
          ["disputeDescription", "reason", "ReasonforDispute", "Reason for Dispute", "Reason"] =
            none →
        (normalizeRow row).disputeDescription = "") ∧
      ∀ row2, row = row2 → normalizeRow row = normalizeRow row2 := by
  refine ⟨getFirst_eq_firstNonEmpty row, ?_, ?_, ?_, ?_, ?_, ?_, ?_⟩
  · intro h
    simp [normalizeRow, jsOr, getFirst_of_none h]
  · intro v h
    have hv := firstNonEmpty_ne_empty h
    simp [normalizeRow, jsOr, getFirst_of_some h, hv]
  · intro h
    simp [normalizeRow, jsOr, getFirst_of_none h]
  · intro v h
    have hv := firstNonEmpty_ne_empty h
    simp [normalizeRow, jsOr, getFirst_of_some h, hv]
  · intro h
    simp [normalizeRow, getFirst_of_none h]
  · intro h
    simp [normalizeRow, getFirst_of_none h]
  · intro row2 h
    rw [h]

/-- A raw row exercising the C3 defaults and the case-insensitive fallback:
`PRIORITY` only matches `priority`/`Priority` case-insensitively, `Status`
holds an empty value, and the dispute-type synonyms are absent. -/
def sampleRow : Row :=
  [("PRIORITY", some "High"), ("Status", some ""), ("supplierId", some "SUP001")]

/-- C3 witness: on `sampleRow` the normalizer returns the case-insensitively
probed priority verbatim, defaults the empty status to `"Pending"`, and
defaults the absent dispute type to `""`. -/
theorem C3_normalizer_witness :
    (normalizeRow sampleRow).priority = "High" ∧
      (normalizeRow sampleRow).Status = "Pending" ∧
      (normalizeRow sampleRow).disputeType = "" := by
  have h := C3_normalizer sampleRow
  exact ⟨h.2.2.1 "High" (by decide), h.2.2.2.1 (by decide), h.2.2.2.2.2.1 (by decide)⟩

/-!
Create-dispute handler of the Apps Script backend:
`handleCreateDisputeRequest` and `getValueForHeader`, identical in
`src/google-apps-script-fixed.gs` (lines 221–330) and `src/unnamed/part_000`
(lines 240–345). A sheet is its header row plus data rows; `getSheetByName`
may return `null`, so each destination sheet is an `Option Sheet`.
-/

/-- A spreadsheet tab: header row and appended data rows. -/
structure Sheet where
  headers : List String
  rows : List (List String)
  deriving Repr, DecidableEq

/-- The three destination tabs the create handler writes to
(`Supplierview`, `Newform`, `Adminportal`), each possibly absent. -/
structure SpreadsheetState where
  supplierview : Option Sheet
  newform : Option Sheet
  adminportal : Option Sheet
  deriving Repr, DecidableEq

/-- `requiredFields` of `handleCreateDisputeRequest`. -/
def requiredFields : List String := ["orderItemId", "trackingId", "supplierName", "supplierEmail"]

/-- The `!body[field] || !body[field].toString().trim()` validation guard:
blank when the field is absent, `null`, empty, or whitespace-only. -/
def isBlank (v : Option (Option String)) : Bool :=
  match v with
  | some (some s) => trimStr s == ""
  | _ => true

/-- JavaScript `body.k || ''` read of a string property. -/
def getStr (body : Row) (k : String) : String :=
  match lookupRow body k with
  | some (some s) => s
  | _ => ""

/-- The `fieldMappings` table of `getValueForHeader`. -/
def fieldMappings : List (String × List String) :=
  [("Timestamp", ["timestamp", "Timestamp", "submissionDate"]),
   ("OrderItemID", ["orderItemId", "OrderItemID", "orderNumber"]),
   ("TrackingID", ["trackingId", "TrackingID"]),
   ("SupplierCity", ["supplierCity", "SupplierCity"]),
   ("DeliveryPartner", ["deliveryPartner", "DeliveryPartner"]),
   ("Supplier", ["supplierName", "Supplier"]),
   ("SupplierEmail", ["supplierEmail", "SupplierEmail"]),
   ("SupplierID", ["supplierId", "SupplierID"]),
   ("DisputeType", ["disputeType", "DisputeType"]),
   ("ReasonforDispute", ["reasonForDispute", "disputeDescription", "ReasonforDispute"]),
   ("Attachments", ["attachments", "Attachments"]),
   ("Priority", ["priority", "Priority"]),
   ("Status", ["status", "Status"])]

/-- Property read over the always-fully-populated `disputeData` object. -/
def dataLookup (data : List (String × String)) (k : String) : Option String :=
  (data.find? (fun p => p.1 == k)).map Prod.snd

/-- `getValueForHeader` from the Apps Script files: mapped synonyms first,
then a direct property match, then the first case-insensitive key match,
finally `''`. -/
def getValueForHeader (data : List (String × String)) (header : String) : String :=
  let viaMapping :=
    match (fieldMappings.find? (fun p => p.1 == header)).map Prod.snd with
    | some fields => fields.findSome? (fun f => dataLookup data f)
    | none => none
  match viaMapping with
  | some v => v
  | none =>
    match dataLookup data header with
    | some v => v
    | none =>
      match data.find? (fun p => lowerStr p.1 == lowerStr header) with
      | some p => p.2
      | none => ""

/-- The `disputeData` object built by `handleCreateDisputeRequest` after
validation passes. -/
def buildDisputeData (timestamp : String) (body : Row) : List (String × String) :=
  [("timestamp", timestamp),
   ("orderItemId", getStr body "orderItemId"),
   ("trackingId", getStr body "trackingId"),
   ("supplierCity", getStr body "supplierCity"),
   ("deliveryPartner", getStr body "deliveryPartner"),
   ("supplierName", getStr body "supplierName"),
   ("supplierEmail", getStr body "supplierEmail"),
   ("supplierId", getStr body "supplierId"),
   ("disputeType", getStr body "disputeType"),
   ("disputeDescription", jsOr (getStr body "disputeDescription") (getStr body "reasonForDispute")),
   ("reasonForDispute", jsOr (getStr body "reasonForDispute") (getStr body "disputeDescription")),
   ("attachments", getStr body "attachments"),
   ("priority", jsOr (getStr body "priority") "Medium"),
   ("status", jsOr (getStr body "status") "Pending")]

/-- `sheet.appendRow(headers.map(h => getValueForHeader(disputeData, h)))`
applied when the destination sheet exists. -/
def appendMappedRow (data : List (String × String)) : Option Sheet → Option Sheet
  | some sheet =>
      some { sheet with rows := sheet.rows ++ [sheet.headers.map (getValueForHeader data)] }
  | none => none

/-- `handleCreateDisputeRequest` from both Apps Script files: validate the
four required fields in order, failing with `` `${field} is required` `` and an
unchanged spreadsheet on the first blank one; otherwise append the
header-mapped dispute row to each of the three destination tabs that exist
and report success. -/
def handleCreateDisputeRequest (timestamp : String) (body : Row)
    (st : SpreadsheetState) : (Bool × String) × SpreadsheetState :=
  match requiredFields.find? (fun f => isBlank (lookupRow body f)) with
  | some f => ((false, f ++ " is required"), st)
  | none =>
    let disputeData := buildDisputeData timestamp body
    ((true, "Dispute submitted successfully"),
     { supplierview := appendMappedRow disputeData st.supplierview
       newform := appendMappedRow disputeData st.newform
       adminportal := appendMappedRow disputeData st.adminportal })

/-- C6 (confirmed): whenever some required field (`orderItemId`,
`trackingId`, `supplierName`, `supplierEmail`) of the create payload is
missing or blank after trimming, `handleCreateDisputeRequest` fails with the
validation message naming a missing required field (the first such field in
the documented order) and returns the spreadsheet state unchanged — no row is
appended to any destination tab. -/
theorem C6_create_validation (timestamp : String) (body : Row) (st : SpreadsheetState)
    (f : String) (hf : f ∈ requiredFields) (hb : isBlank (lookupRow body f) = true) :
    ∃ g, g ∈ requiredFields ∧ isBlank (lookupRow body g) = true ∧
      handleCreateDisputeRequest timestamp body st = ((false, g ++ " is required"), st) := by
  have hsome : (requiredFields.find? (fun x => isBlank (lookupRow body x))).isSome := by
    rw [List.find?_isSome]
    exact ⟨f, hf, hb⟩
  cases hfind : requiredFields.find? (fun x => isBlank (lookupRow body x)) with
  | none => rw [hfind] at hsome; cases hsome
  | some g =>
    refine ⟨g, List.mem_of_find?_eq_some hfind, ?_, ?_⟩
    · have hg := List.find?_some hfind
      simpa using hg
    · unfold handleCreateDisputeRequest
      rw [hfind]

/-- A create payload whose `trackingId` is absent while the other required
fields are present and non-blank. -/
def bodyNoTracking : Row :=
  [("orderItemId", some "OI-1"), ("supplierName", some "Acme"),
   ("supplierEmail", some "a@acme.com"), ("reasonForDispute", some "lost")]

/-- A spreadsheet state with all three destination tabs present and empty. -/
def emptySheets : SpreadsheetState :=
  { supplierview := some { headers := ["Timestamp", "TrackingID"], rows := [] }
    newform := some { headers := ["TrackingID"], rows := [] }
    adminportal := some { headers := ["OrderItemID", "Status"], rows := [] } }

/-- C6 witness: with `trackingId` missing, the handler rejects the payload
with the message `"trackingId is required"` and appends nothing. -/
theorem C6_create_validation_witness :
    ∃ g, g ∈ requiredFields ∧ isBlank (lookupRow bodyNoTracking g) = true ∧
      handleCreateDisputeRequest "2024-01-01T00:00:00Z" bodyNoTracking emptySheets =
        ((false, g ++ " is required"), emptySheets) :=
  C6_create_validation "2024-01-01T00:00:00Z" bodyNoTracking emptySheets
    "trackingId" (by decide) (by decide)

/-!
Owner filtering: `getDisputes` in `src/services/googleSheets.ts`
(lines 474–505, with the filter clause at 497–499) and the client-side
fallback of `getSupplierviewDisputes` in `src/services/Webportal.ts`
(lines 93–106). An absent filter argument is `none`; the JavaScript
`if (supplierIdFilter)` guard makes an empty-string filter a no-op.
-/

/-- The per-row normalization inside `getDisputes`
(`googleSheets.ts` lines 479–494), `row.x || row.Y || ''` fallbacks. -/
def gsNormalizeRow (row : Row) : Dispute :=
  { Timestamp := jsOr (getStr row "Timestamp") (getStr row "submissionDate")
    supplierName := jsOr (getStr row "supplierName") (getStr row "Supplier")
    supplierEmail := getStr row "supplierEmail"
    supplierId := jsOr (getStr row "supplierId") (getStr row "SupplierID")
    disputeType := getStr row "disputeType"
    disputeDescription := jsOr (getStr row "disputeDescription") (getStr row "ReasonforDispute")
    orderNumber := jsOr (getStr row "orderNumber") (getStr row "OrderItemID")
    disputeAmount := getStr row "disputeAmount"
    attachments := getStr row "attachments"
    priority := jsOr (getStr row "priority") "Medium"
    category := getStr row "category"
    subcategory := getStr row "subcategory"
    expectedResolution := getStr row "expectedResolution"
    contactPhone := getStr row "contactPhone"
    preferredContactMethod := getStr row "preferredContactMethod"
    Status := jsOr (jsOr (getStr row "Status") (getStr row "status")) "Pending" }

/-- `getDisputes` from `src/services/googleSheets.ts` (lines 474–505) on the
already-fetched raw rows: normalize each row, then, when a non-empty
`supplierIdFilter` is supplied, keep exactly the records whose `supplierId`
equals it — the supplier email is not consulted. -/
def getDisputes (rows : List Row) (supplierIdFilter : Option String) : List Dispute :=
  let disputes := rows.map gsNormalizeRow
  match supplierIdFilter with
  | none => disputes
  | some f => if f == "" then disputes else disputes.filter (fun d => d.supplierId == f)

/-- The non-demo branch of `getSupplierviewDisputes` from
`src/services/Webportal.ts` (lines 98–105): normalize each raw row with
`normalizeRow`, then apply the client-side owner filter matching supplier
email or supplier id. -/
def getSupplierviewDisputesRemote (raw : List Row) (supplierIdOrEmail : Option String) :
    List Dispute :=
  let arr := raw.map normalizeRow
  match supplierIdOrEmail with
  | none => arr
  | some x =>
    if x == "" then arr
    else arr.filter (fun d => d.supplierEmail == x || d.supplierId == x)

/-- A raw row whose normalized record has `supplierEmail = "e@x.com"` but
`supplierId = "X"`. -/
def ownerRow : Row :=
  [("supplierEmail", some "e@x.com"), ("supplierId", some "X"),
   ("orderNumber", some "ORD1")]

/-- C8 (counterexample): filtering `getDisputes` by the owner value
`"e@x.com"` — which equals the record's supplier email — returns the empty
list: `getDisputes` matches the supplier identifier only, so the claimed
"supplier identifier **or** supplier email" criterion fails on it. -/
theorem C8_ownerFilter_counterexample :
    (gsNormalizeRow ownerRow).supplierEmail = "e@x.com" ∧
      getDisputes [ownerRow] (some "e@x.com") = [] :=
  ⟨by decide, by decide⟩

/-- C8 (amended): with a non-empty owner filter, `getDisputes` returns
exactly the normalized records whose supplier identifier equals the filter
value (exact equality; the supplier email is not consulted), while the
`Webportal.ts` client-side fallback returns exactly those whose supplier
email or supplier identifier equals it; in both cases the result is a
subsequence of the unfiltered collection preserving relative order. -/
theorem C8_ownerFilter_amended (rows : List Row) (f : String) (hf : f ≠ "") :
    (∀ d : Dispute, d ∈ getDisputes rows (some f) ↔
        d ∈ getDisputes rows none ∧ d.supplierId = f) ∧
      (getDisputes rows (some f)).Sublist (getDisputes rows none) ∧
      (∀ d : Dispute, d ∈ getSupplierviewDisputesRemote rows (some f) ↔
        d ∈ getSupplierviewDisputesRemote rows none ∧
          (d.supplierEmail = f ∨ d.supplierId = f)) ∧
      (getSupplierviewDisputesRemote rows (some f)).Sublist
        (getSupplierviewDisputesRemote rows none) := by
  have hbf : (f == "") = false := by
    simpa using hf
  refine ⟨fun d => ?_, ?_, fun d => ?_, ?_⟩
  · simp [getDisputes, hbf, List.mem_filter]
  · simp only [getDisputes, hbf, Bool.false_eq_true, if_false]
    exact List.filter_sublist _
  · simp [getSupplierviewDisputesRemote, hbf, List.mem_filter, or_comm]
  · simp only [getSupplierviewDisputesRemote, hbf, Bool.false_eq_true, if_false]
    exact List.filter_sublist _

/-- C8 witness: filtering by the supplier identifier `"X"` keeps `ownerRow`'s
record, and the result is a subsequence of the unfiltered list. -/
theorem C8_ownerFilter_witness :
    (gsNormalizeRow ownerRow ∈ getDisputes [ownerRow] (some "X") ↔
        gsNormalizeRow ownerRow ∈ getDisputes [ownerRow] none ∧
          (gsNormalizeRow ownerRow).supplierId = "X") ∧
      (getDisputes [ownerRow] (some "X")).Sublist (getDisputes [ownerRow] none) :=
  ⟨((C8_ownerFilter_amended [ownerRow] "X" (by decide)).1 (gsNormalizeRow ownerRow)),
    (C8_ownerFilter_amended [ownerRow] "X" (by decide)).2.1⟩

/-!
Login matching. Two divergent Apps Script generations ship in the
repository: `handleLoginRequest` in `src/unnamed/part_000` (lines 105–136,
trim + case-insensitive email, trim + exact password) and
`handleLoginRequest` in `src/google-apps-script-fixed.gs` (line 113, raw
exact `===` on both email and password). A credentials row is its
email/password pair.
-/

/-- The row-matching predicate of `handleLoginRequest` in
`src/unnamed/part_000`: `searchEmail = email.toLowerCase().trim()`,
`searchPassword = password.trim()`, compared against each row's
trimmed-lowercased email and trimmed password. Returns whether some
credentials row matches (`credData.find(...)` succeeding). -/
def loginMatchPart (credData : List (String × String)) (email password : String) : Bool :=
  let searchEmail := trimStr (lowerStr email)
  let searchPassword := trimStr password
  credData.any (fun row =>
    lowerStr (trimStr row.1) == searchEmail && trimStr row.2 == searchPassword)

/-- The row-matching predicate of `handleLoginRequest` in
`src/google-apps-script-fixed.gs` (line 113):
`row[emailIdx] === email && row[passwordIdx] === password`, raw exact
equality with no trimming and no case folding. -/
def loginMatchFixed (credData : List (String × String)) (email password : String) : Bool :=
  credData.any (fun row => row.1 == email && row.2 == password)

/-- A credentials table whose single row stores the email with a capital
letter. -/
def credTable : List (String × String) := [("Admin@demo", "Passw0rd!")]

/-- C9 (counterexample): for the request `("admin@demo", "Passw0rd!")`
against a table holding `("Admin@demo", "Passw0rd!")`, the claimed
trim + case-insensitive policy matches (and `part_000`'s implementation
accepts), but `google-apps-script-fixed.gs`'s implementation rejects — the
one policy is not applied uniformly by the login implementation. -/
theorem C9_login_counterexample :
    loginMatchPart credTable "admin@demo" "Passw0rd!" = true ∧
      loginMatchFixed credTable "admin@demo" "Passw0rd!" = false ∧
      lowerStr (trimStr "Admin@demo") = trimStr (lowerStr "admin@demo") :=
  ⟨by decide, by decide, by decide⟩

/-- C9 (amended): the `part_000` login matches a request exactly when some
credentials row agrees on the trimmed, case-folded email and on the trimmed
password, while the `google-apps-script-fixed.gs` login matches exactly when
some row equals the raw email and password — two different policies, so the
trim + case-insensitive email / trim + exact password policy is implemented
by one generation but not applied uniformly across the repository's login
implementations. -/
theorem C9_login_amended (credData : List (String × String)) (email password : String) :
    (loginMatchPart credData email password = true ↔
        ∃ row ∈ credData, lowerStr (trimStr row.1) = trimStr (lowerStr email) ∧
          trimStr row.2 = trimStr password) ∧
      (loginMatchFixed credData email password = true ↔
        ∃ row ∈ credData, row.1 = email ∧ row.2 = password) := by
  constructor
  · simp [loginMatchPart, List.any_eq_true, Bool.and_eq_true, beq_iff_eq]
  · simp [loginMatchFixed, List.any_eq_true, Bool.and_eq_true, beq_iff_eq]

/-!
Client-side demo authentication: `DEMO_USERS` and `login` in
`src/contexts/AuthContext.tsx` (lines 24–40 and 60–81). The remote-store
integration is an unimplemented TODO in the source, so `login` consults only
the static demo list; success is modelled by the `find` result being `some`.
-/

/-- A demo user of `AuthContext.tsx`; `supplierId` is optional there. -/
structure DemoUser where
  id : String
  email : String
  password : String
  role : String
  supplierName : String
  supplierId : Option String
  deriving Repr, DecidableEq

/-- The first entry of `DEMO_USERS` in `AuthContext.tsx`. -/
def adminDemoUser : DemoUser :=
  { id := "1", email := "admin@demo", password := "Passw0rd!", role := "admin",
    supplierName := "Admin User", supplierId := none }

/-- The second entry of `DEMO_USERS` in `AuthContext.tsx`. -/
def supplierDemoUser : DemoUser :=
  { id := "2", email := "supplier@demo", password := "Passw0rd!", role := "supplier",
    supplierName := "Demo Supplier", supplierId := some "SUP001" }

/-- `DEMO_USERS` from `AuthContext.tsx` (lines 24–40). -/
def DEMO_USERS : List DemoUser := [adminDemoUser, supplierDemoUser]

/-- The credential check of `login` in `AuthContext.tsx` (line 66):
`DEMO_USERS.find(u => u.email === email && u.password === password)`; the
surrounding function returns `true` exactly when this finds a user and
`false` otherwise, without consulting any remote store. -/
def authLogin (email password : String) : Option DemoUser :=
  DEMO_USERS.find? (fun u => u.email == email && u.password == password)

/-- C10 (confirmed): the demo login succeeds exactly on the byte-for-byte
pairs `("admin@demo", "Passw0rd!")` (yielding the role-`admin` user) and
`("supplier@demo", "Passw0rd!")` (yielding the role-`supplier` user) — exact,
case-sensitive, untrimmed comparison against the two built-in users, `false`
for every other input. -/
theorem C10_demo_login (email password : String) :
    ((authLogin email password).isSome ↔
        (email = "admin@demo" ∧ password = "Passw0rd!") ∨
          (email = "supplier@demo" ∧ password = "Passw0rd!")) ∧
      (∀ u, authLogin email password = some u →
        (email = "admin@demo" ∧ u.role = "admin") ∨
          (email = "supplier@demo" ∧ u.role = "supplier")) ∧
      authLogin "admin@demo" "Passw0rd!" = some adminDemoUser ∧
      authLogin "supplier@demo" "Passw0rd!" = some supplierDemoUser := by
  refine ⟨?_, ?_, by decide, by decide⟩
  · rw [Option.isSome_iff_exists]
    constructor
    · rintro ⟨u, hu⟩
      have hmem := List.mem_of_find?_eq_some hu
      have hpred := List.find?_some hu
      simp only [Bool.and_eq_true, beq_iff_eq] at hpred
      simp only [DEMO_USERS, List.mem_cons, List.not_mem_nil, or_false] at hmem
      rcases hmem with h | h <;> rw [h] at hpred <;>
        simp only [adminDemoUser, supplierDemoUser] at hpred <;> [left; right] <;>
        exact ⟨hpred.1.symm, hpred.2.symm⟩
    · rintro (⟨he, hp⟩ | ⟨he, hp⟩) <;> subst he <;> subst hp
      · exact ⟨adminDemoUser, by decide⟩
      · exact ⟨supplierDemoUser, by decide⟩
  · intro u hu
    have hmem := List.mem_of_find?_eq_some hu
    have hpred := List.find?_some hu
    simp only [Bool.and_eq_true, beq_iff_eq] at hpred
    simp only [DEMO_USERS, List.mem_cons, List.not_mem_nil, or_false] at hmem
    rcases hmem with h | h <;> subst h <;>
      simp only [adminDemoUser, supplierDemoUser] at hpred
    · exact Or.inl ⟨hpred.1.symm, rfl⟩
    · exact Or.inr ⟨hpred.1.symm, rfl⟩

/-- C10 witness: the admin pair is accepted and yields the admin role. -/
theorem C10_demo_login_witness :
    ("admin@demo" = "admin@demo" ∧ adminDemoUser.role = "admin") ∨
      ("admin@demo" = "supplier@demo" ∧ adminDemoUser.role = "supplier") :=
  (C10_demo_login "admin@demo" "Passw0rd!").2.1 adminDemoUser (by decide)
